import Mathlib

/-!
# Verification of the DIO-v3 EEIO multiplier pipeline

Shallow embedding of the core of the DIO-v3 repository:

* `calculate_multipliers_python.py` — sector index construction, the
  direct-requirements matrix `A`, the Leontief step `L = (I-A)⁻¹` with its
  pseudo-inverse fallback, and the environmental-flow aggregation that
  produces the `B` matrix (GHG and Water categories);
* `calculate_leontief_energy.py` — the literature-banded energy supply-chain
  multiplier `get_io_multiplier`;
* `backend/app/core/calculator.py` — the `DIOCalculator.calculate` impact
  applier.

Python strings are modelled through their character lists (`String.data`);
Python floats are modelled as exact rationals (`ℚ`); Python dictionaries are
modelled as update functions or insertion-ordered association lists; a Python
call that can raise is modelled in `Except String`.
-/

set_option maxRecDepth 2000

namespace DIO

/-! ## String helpers

Models of the Python string operations used by the scripts, written over
`List Char` so that every operation is kernel-reducible. -/

/-- Model of Python `s.replace('/US', '')`: delete every (non-overlapping,
left-to-right) occurrence of `"/US"`. -/
def stripUSAux : List Char → List Char
  | '/' :: 'U' :: 'S' :: rest => stripUSAux rest
  | c :: cs => c :: stripUSAux cs
  | [] => []

/-- `FlowID.replace('/US', '')` from the scripts. -/
def stripUS (s : String) : String := ⟨stripUSAux s.data⟩

/-- Model of Python `s.replace(' - US', '')`. -/
def stripDashUSAux : List Char → List Char
  | ' ' :: '-' :: ' ' :: 'U' :: 'S' :: rest => stripDashUSAux rest
  | c :: cs => c :: stripDashUSAux cs
  | [] => []

/-- Model of the Python substring test `pat in s` (nonempty `pat`). -/
def hasSubAux (pat : List Char) : List Char → Bool
  | [] => pat.isPrefixOf []
  | c :: cs => pat.isPrefixOf (c :: cs) || hasSubAux pat cs

/-- `pat in s` for strings. -/
def containsSub (s pat : String) : Bool := hasSubAux pat.data s.data

/-- Model of Python `s.strip()`: drop whitespace from both ends. -/
def trimChars (l : List Char) : List Char :=
  ((l.dropWhile Char.isWhitespace).reverse.dropWhile Char.isWhitespace).reverse

/-- Model of Python `s.lower()`. -/
def lowerStr (s : String) : String := ⟨s.data.map Char.toLower⟩

/-- Model of Python `s.startswith(p)`. -/
def pyStartsWith (s p : String) : Bool := p.data.isPrefixOf s.data

/-- Numeric value of an ASCII digit list, `int(s)` for an all-digit `s`. -/
def digitsToNat (l : List Char) : Nat :=
  l.foldl (fun acc c => acc * 10 + (c.toNat - '0'.toNat)) 0

/-- Model of Python `s.isdigit()` (ASCII): nonempty and all digits. -/
def isDigits (l : List Char) : Bool := !l.isEmpty && l.all Char.isDigit

/-! ## Environmental-flow aggregation (`calculate_multipliers_python.py`,
lines 113–147)

One row of `B_Matrix_DIO.csv` carries a process id, a flow substance name
(`Flowable`), an amount and a unit.  The script accumulates the rows into the
per-process dictionary `B_process` keyed by impact category, applying the GWP
weights for methane and nitrous oxide and the m³→gallon conversion for fresh
water at ingestion. -/

structure FlowRow where
  processId : String
  flowable : String
  amount : ℚ
  unit : String
deriving DecidableEq

/-- The single category/value update a `B_Matrix` row performs on
`B_process[processId]` (source lines 121–132): the `if/elif` chain maps each
substance to exactly one category and applies its weight once. `none` means
the row's substance is not categorised and the row is ignored. -/
def flowContrib (r : FlowRow) : Option (String × ℚ) :=
  if r.flowable = "Carbon dioxide" then some ("GHG_CO2", r.amount)
  else if r.flowable = "Methane" then some ("GHG_CH4", r.amount * 28)
  else if r.flowable = "Nitrous oxide" then some ("GHG_N2O", r.amount * 265)
  else if r.flowable = "Water, fresh" then
    some ("Water", if r.unit = "m3" then r.amount * 264.172 else r.amount)
  else none

/-- Cell `B_process[p][c]` after folding all rows: each row adds its single
contribution to the cell named by `flowContrib` (a `defaultdict(float)` cell
is the sum of the `+=` updates that hit it). -/
def bprocAux (acc : ℚ) (rows : List FlowRow) (p c : String) : ℚ :=
  match rows with
  | [] => acc
  | r :: rs =>
    match flowContrib r with
    | some (c', v) =>
        bprocAux (if r.processId = p ∧ c' = c then acc + v else acc) rs p c
    | none => bprocAux acc rs p c

/-- `B_process[p][c]` for the full row list. -/
def bproc (rows : List FlowRow) (p c : String) : ℚ := bprocAux 0 rows p c

/-- The combined GHG value `B_process[p]['GHG']` (source lines 135–140):
sum of the three (already GWP-weighted) gas cells. -/
def ghgCombined (rows : List FlowRow) (p : String) : ℚ :=
  bproc rows p "GHG_CO2" + bproc rows p "GHG_CH4" + bproc rows p "GHG_N2O"

/-- Total native-unit CO₂ mass of process `p` (reference quantity from the
spec: the constituent gas amounts). -/
def co2Native (rows : List FlowRow) (p : String) : ℚ :=
  ((rows.filter (fun r => r.processId = p ∧ r.flowable = "Carbon dioxide")).map
    (·.amount)).sum

/-- Total native-unit CH₄ mass of process `p`. -/
def ch4Native (rows : List FlowRow) (p : String) : ℚ :=
  ((rows.filter (fun r => r.processId = p ∧ r.flowable = "Methane")).map
    (·.amount)).sum

/-- Total native-unit N₂O mass of process `p`. -/
def n2oNative (rows : List FlowRow) (p : String) : ℚ :=
  ((rows.filter (fun r => r.processId = p ∧ r.flowable = "Nitrous oxide")).map
    (·.amount)).sum

theorem bprocAux_acc (rows : List FlowRow) (p c : String) (acc : ℚ) :
    bprocAux acc rows p c = acc + bprocAux 0 rows p c := by
  induction rows generalizing acc with
  | nil => simp [bprocAux]
  | cons r rs ih =>
    simp only [bprocAux]
    cases h : flowContrib r with
    | none => exact ih acc
    | some cv =>
      obtain ⟨c', v⟩ := cv
      by_cases hc : r.processId = p ∧ c' = c
      · simp only [if_pos hc]
        rw [ih (acc + v), ih (0 + v)]
        ring
      · simp only [if_neg hc]
        exact ih acc

theorem bproc_cons (r : FlowRow) (rs : List FlowRow) (p c : String) :
    bproc (r :: rs) p c =
      (match flowContrib r with
        | some (c', v) => if r.processId = p ∧ c' = c then v else 0
        | none => 0) + bproc rs p c := by
  unfold bproc
  simp only [bprocAux]
  cases h : flowContrib r with
  | none => simp
  | some cv =>
    obtain ⟨c', v⟩ := cv
    dsimp only
    by_cases hc : r.processId = p ∧ c' = c
    · rw [if_pos hc, if_pos hc, bprocAux_acc rs p c (0 + v)]
      ring
    · rw [if_neg hc, if_neg hc, zero_add]

theorem bproc_co2 (rows : List FlowRow) (p : String) :
    bproc rows p "GHG_CO2" = co2Native rows p := by
  induction rows with
  | nil => simp [bproc, bprocAux, co2Native]
  | cons r rs ih =>
    rw [bproc_cons]
    unfold co2Native at *
    simp only [List.filter_cons]
    by_cases h1 : r.flowable = "Carbon dioxide"
    · by_cases hp : r.processId = p
      · simp [flowContrib, h1, hp, ih]
      · simp [flowContrib, h1, hp, ih]
    · by_cases h2 : r.flowable = "Methane"
      · simp [flowContrib, h1, h2, ih]
      · by_cases h3 : r.flowable = "Nitrous oxide"
        · simp [flowContrib, h1, h2, h3, ih]
        · by_cases h4 : r.flowable = "Water, fresh"
          · simp [flowContrib, h1, h2, h3, h4, ih]
          · simp [flowContrib, h1, h2, h3, h4, ih]

theorem bproc_ch4 (rows : List FlowRow) (p : String) :
    bproc rows p "GHG_CH4" = 28 * ch4Native rows p := by
  induction rows with
  | nil => simp [bproc, bprocAux, ch4Native]
  | cons r rs ih =>
    rw [bproc_cons]
    unfold ch4Native at *
    simp only [List.filter_cons]
    by_cases h1 : r.flowable = "Carbon dioxide"
    · simp [flowContrib, h1, ih]
    · by_cases h2 : r.flowable = "Methane"
      · by_cases hp : r.processId = p
        · simp [flowContrib, h1, h2, hp, ih]; ring
        · simp [flowContrib, h1, h2, hp, ih]
      · by_cases h3 : r.flowable = "Nitrous oxide"
        · simp [flowContrib, h1, h2, h3, ih]
        · by_cases h4 : r.flowable = "Water, fresh"
          · simp [flowContrib, h1, h2, h3, h4, ih]
          · simp [flowContrib, h1, h2, h3, h4, ih]

theorem bproc_n2o (rows : List FlowRow) (p : String) :
    bproc rows p "GHG_N2O" = 265 * n2oNative rows p := by
  induction rows with
  | nil => simp [bproc, bprocAux, n2oNative]
  | cons r rs ih =>
    rw [bproc_cons]
    unfold n2oNative at *
    simp only [List.filter_cons]
    by_cases h1 : r.flowable = "Carbon dioxide"
    · simp [flowContrib, h1, ih]
    · by_cases h2 : r.flowable = "Methane"
      · simp [flowContrib, h1, h2, ih]
      · by_cases h3 : r.flowable = "Nitrous oxide"
        · by_cases hp : r.processId = p
          · simp [flowContrib, h1, h2, h3, hp, ih]; ring
          · simp [flowContrib, h1, h2, h3, hp, ih]
        · by_cases h4 : r.flowable = "Water, fresh"
          · simp [flowContrib, h1, h2, h3, h4, ih]
          · simp [flowContrib, h1, h2, h3, h4, ih]

/-! ## Process → sector aggregation of flows
(`calculate_multipliers_python.py`, lines 158–172) -/

/-- First-occurrence deduplication, the key order of a Python dict built by
insertion (`dict.keys()` iterates first-insertion order). -/
def dedupF {α : Type} [DecidableEq α] : List α → List α
  | [] => []
  | x :: xs => x :: (dedupF xs).filter (fun y => y ≠ x)

/-- The keys of `B_process` (`B_process.items()`): processes that received at
least one categorised flow row, in first-insertion order. -/
def itemsList (rows : List FlowRow) : List String :=
  dedupF ((rows.filter (fun r => (flowContrib r).isSome)).map (·.processId))

/-- The resolution-and-validity test of source lines 162–164: the process
resolves through `process_to_sector` and the resolved sector is in
`sector_info` and equals `s`. -/
def mapsToSector (p2s : String → Option String) (valid : String → Bool)
    (s p : String) : Bool :=
  match p2s p with
  | some sec => valid sec && sec == s
  | none => false

/-- `sector_flows[s]['GHG']` (source lines 160–166): fold over
`B_process.items()` adding each resolved process's combined GHG value. -/
def sectorFlowsGHG (rows : List FlowRow) (p2s : String → Option String)
    (valid : String → Bool) (s : String) : ℚ :=
  (itemsList rows).foldl
    (fun acc p =>
      if mapsToSector p2s valid s p then acc + ghgCombined rows p else acc) 0

theorem foldl_filter_sum {α : Type} (pred : α → Bool) (f : α → ℚ)
    (l : List α) (acc : ℚ) :
    l.foldl (fun a x => if pred x then a + f x else a) acc
      = acc + ((l.filter pred).map f).sum := by
  induction l generalizing acc with
  | nil => simp
  | cons x xs ih =>
    by_cases h : pred x
    · simp only [List.foldl_cons, if_pos h, List.filter_cons, h, ite_true,
        List.map_cons, List.sum_cons, ih]
      ring
    · simp only [List.foldl_cons, if_neg h, List.filter_cons, h,
        Bool.false_eq_true, ite_false, ih]


/-- **C2.** For every set of environmental flow records: (1) the combined
`GHG` value of a process is the weighted sum of its constituent native gas
amounts with CO₂ weighted 1, CH₄ weighted 28 and N₂O weighted 265; (2) the
sector-level GHG aggregate that feeds row `GHG` of the `B` matrix (and hence
the multiplier `M = B @ L`) is exactly this process-level weighted sum,
summed over the processes that resolve to the sector — the aggregation
happens at the process level, before the Leontief multiplication; (3) every
flow row is mapped to exactly one category, so categories never
double-count, and the GWP weight is applied exactly once at ingestion. -/
theorem ghg_weighted_sum (rows : List FlowRow) (p : String)
    (p2s : String → Option String) (valid : String → Bool) (s : String) :
    (ghgCombined rows p
        = co2Native rows p + 28 * ch4Native rows p + 265 * n2oNative rows p)
    ∧ (sectorFlowsGHG rows p2s valid s
        = (((itemsList rows).filter (mapsToSector p2s valid s)).map
            (fun q => co2Native rows q + 28 * ch4Native rows q
              + 265 * n2oNative rows q)).sum)
    ∧ (∀ (r : FlowRow) (c' : String) (v : ℚ), flowContrib r = some (c', v) →
        ∀ c : String, c ≠ c' → bproc [r] p c = 0) := by
  refine ⟨?_, ?_, ?_⟩
  · rw [ghgCombined, bproc_co2, bproc_ch4, bproc_n2o]
  · rw [sectorFlowsGHG, foldl_filter_sum, zero_add]
    refine congrArg List.sum (List.map_congr_left ?_)
    intro q _
    rw [ghgCombined, bproc_co2, bproc_ch4, bproc_n2o]
  · intro r c' v h c hc
    rw [bproc_cons, h]
    simp only [bproc, bprocAux, hc.symm, and_false, if_false, add_zero]

/-- Witness for `ghg_weighted_sum`: a methane row of 2 kg on process `P1`
contributes nothing to the `Water` category (conjunct 3, hypotheses
discharged concretely), and the combined GHG of `P1` is `2 × 28 = 56`. -/
theorem ghg_weighted_sum_witness :
    bproc [⟨"P1", "Methane", 2, "kg"⟩] "P0" "Water" = 0
    ∧ ghgCombined [⟨"P1", "Methane", 2, "kg"⟩] "P1" = 56 := by
  constructor
  · exact (ghg_weighted_sum [⟨"P1", "Methane", 2, "kg"⟩] "P0"
      (fun _ => none) (fun _ => false) "S").2.2
      ⟨"P1", "Methane", 2, "kg"⟩ "GHG_CH4" (2 * 28)
      (by simp [flowContrib]) "Water" (by decide)
  · rw [(ghg_weighted_sum [⟨"P1", "Methane", 2, "kg"⟩] "P1"
      (fun _ => none) (fun _ => false) "S").1]
    simp [co2Native, ch4Native, n2oNative]
    norm_num

/-- **C5.** A `Water, fresh` flow row contributes to the `Water` category its
native amount times exactly 264.172 when the native unit is cubic meters
(`m3`), and its native amount unchanged when the unit is already gallons. -/
theorem water_unit_conversion (r : FlowRow) (hw : r.flowable = "Water, fresh") :
    (r.unit = "m3" → bproc [r] r.processId "Water" = r.amount * 264.172)
    ∧ (r.unit = "gal" → bproc [r] r.processId "Water" = r.amount) := by
  have hcontrib : flowContrib r
      = some ("Water", if r.unit = "m3" then r.amount * 264.172 else r.amount) := by
    rw [flowContrib]
    rw [hw]
    simp
  constructor
  · intro hu
    rw [bproc_cons, hcontrib, hu]
    simp [bproc, bprocAux]
  · intro hu
    rw [bproc_cons, hcontrib, hu]
    simp [bproc, bprocAux]

/-- Witness for `water_unit_conversion`: a 1 m³ fresh-water flow contributes
exactly 264.172 gallons; a 5-gallon flow passes through unchanged. -/
theorem water_unit_conversion_witness :
    bproc [⟨"P", "Water, fresh", 1, "m3"⟩] "P" "Water" = 264.172
    ∧ bproc [⟨"Q", "Water, fresh", 5, "gal"⟩] "Q" "Water" = 5 := by
  constructor
  · have h := (water_unit_conversion ⟨"P", "Water, fresh", 1, "m3"⟩ rfl).1 rfl
    rw [h]
    norm_num
  · exact (water_unit_conversion ⟨"Q", "Water, fresh", 5, "gal"⟩ rfl).2 rfl

/-! ## Direct-requirements matrix construction
(`calculate_multipliers_python.py`, lines 60–89)

The loop state is the matrix `A` (a `numpy` array, modelled as a total
function on index pairs) together with the `process_to_sector` dictionary.
The sector index `sector_to_idx` is an external parameter here, exactly as
the loop reads it. -/

structure TxRow where
  processId : String
  flowId : String
  amount : ℚ
deriving DecidableEq

structure ABuildState where
  A : Nat → Nat → ℚ
  processToSector : String → Option String

/-- One iteration of the `for _, row in a_matrix_df.iterrows()` loop of
source lines 63–84: strip the region suffix from the producing sector,
record the process→sector mapping if the process is not yet known (the
process is assumed to produce its own sector), and, when the producing
sector, the tracked consuming sector and hence both indices resolve, add the
row amount at `A[consuming_idx, producing_idx]`. -/
def stepA (idx : String → Option Nat) (st : ABuildState) (r : TxRow) :
    ABuildState :=
  let producing := stripUS r.flowId
  let pts : String → Option String :=
    match st.processToSector r.processId with
    | none => fun p => if p = r.processId then some producing
        else st.processToSector p
    | some _ => st.processToSector
  let A : Nat → Nat → ℚ :=
    match idx producing with
    | none => st.A
    | some j =>
      match pts r.processId with
      | none => st.A
      | some consuming =>
        match idx consuming with
        | none => st.A
        | some i => fun a b =>
            if a = i ∧ b = j then st.A a b + r.amount else st.A a b
  ⟨A, pts⟩

/-- The zero-initialised build state (`A = np.zeros`, empty
`process_to_sector`). -/
def initABuildState : ABuildState := ⟨fun _ _ => 0, fun _ => none⟩

/-- The full A-matrix build: fold the loop body over the transaction rows
starting from the zero state. -/
def buildA (idx : String → Option Nat) (rows : List TxRow) : ABuildState :=
  rows.foldl (stepA idx) initABuildState

/-- The build-health diagnostics the A-matrix construction step reports
(the prints of source lines 86–89): the matrix shape, the non-zero element
count, the sparsity and the maximum coefficient.  Nothing else about the
build is reported; in particular no skipped-row or used-row count is
computed anywhere in lines 60–89. -/
def aMatrixBuildDiagnostics : List String :=
  ["A matrix shape", "Non-zero elements", "Sparsity", "Max coefficient"]

theorem stepA_pts (idx : String → Option Nat) (st : ABuildState) (r : TxRow) :
    (stepA idx st r).processToSector r.processId
      = some ((st.processToSector r.processId).getD (stripUS r.flowId)) := by
  unfold stepA
  cases hpt : st.processToSector r.processId with
  | none => simp [hpt]
  | some s => simp [hpt]

/-- **C1 (amended).** One loop iteration of the direct-requirements build:
the consuming process resolves to the sector it produces (if not already
known, the process id is mapped to the row's own producing sector); whenever
both the consuming sector and the producing sector resolve to indices of the
sector index, the row amount is added at `A[consuming_idx, producing_idx]`
of the zero-initialised matrix and no other entry changes; a row where
either side does not resolve leaves `A` unchanged.  (The build does not
count or report skipped rows: its only reported diagnostics are shape,
non-zero count, sparsity and max coefficient.) -/
theorem directRequirements_step (idx : String → Option Nat)
    (st : ABuildState) (r : TxRow) :
    ((buildA idx []).A = fun _ _ => (0 : ℚ))
    ∧ ((stepA idx st r).processToSector r.processId
        = some ((st.processToSector r.processId).getD (stripUS r.flowId)))
    ∧ (∀ i j cs, idx (stripUS r.flowId) = some j →
        (stepA idx st r).processToSector r.processId = some cs →
        idx cs = some i →
        ((stepA idx st r).A i j = st.A i j + r.amount
          ∧ ∀ a b, ¬(a = i ∧ b = j) → (stepA idx st r).A a b = st.A a b))
    ∧ ((idx (stripUS r.flowId) = none
          ∨ ∃ cs, (stepA idx st r).processToSector r.processId = some cs
              ∧ idx cs = none)
        → (stepA idx st r).A = st.A) := by
  refine ⟨rfl, stepA_pts idx st r, ?_, ?_⟩
  · intro i j cs h1 h2 h3
    have hA : (stepA idx st r).A = fun a b =>
        if a = i ∧ b = j then st.A a b + r.amount else st.A a b := by
      conv =>
        lhs
        unfold stepA
      simp only at h2 ⊢
      rw [h1]
      unfold stepA at h2
      simp only at h2
      rw [h2]
      dsimp only
      rw [h3]
    constructor
    · rw [hA]
      simp
    · intro a b hab
      rw [hA]
      simp [hab]
  · intro h
    cases h with
    | inl h1 =>
      conv =>
        lhs
        unfold stepA
      simp only
      rw [h1]
    | inr h2 =>
      obtain ⟨cs, hcs, hnone⟩ := h2
      unfold stepA at hcs ⊢
      simp only at hcs ⊢
      cases hj : idx (stripUS r.flowId) with
      | none => rfl
      | some j =>
        rw [hcs]
        dsimp only
        rw [hnone]

/-- Witness for `directRequirements_step`: with the two-sector index
`S1 ↦ 0, S2 ↦ 1` and the single row `(process "P", producing "S2/US",
amount 5)`, the process resolves to `S2`, both sides resolve, and the step
adds 5 at `A[1,1]` leaving `A[0,0]` unchanged. -/
theorem directRequirements_step_witness :
    (stepA (fun c => if c = "S1" then some 0 else if c = "S2" then some 1 else none)
        initABuildState ⟨"P", "S2/US", 5⟩).A 1 1 = 0 + 5
    ∧ (stepA (fun c => if c = "S1" then some 0 else if c = "S2" then some 1 else none)
        initABuildState ⟨"P", "S2/US", 5⟩).A 0 0 = 0 := by
  have h := (directRequirements_step
    (fun c => if c = "S1" then some 0 else if c = "S2" then some 1 else none)
    initABuildState ⟨"P", "S2/US", 5⟩).2.2.1 1 1 "S2"
    (by decide) (by decide) (by decide)
  exact ⟨h.1, h.2 0 0 (by decide)⟩

/-- **C1 (counterexample to the skipped-row reporting).** The A-matrix
build step reports exactly four diagnostics — shape, non-zero count,
sparsity, max coefficient (source lines 86–89) — and no skipped-row or
used-row count: the claim that an input with K unresolvable rows reports
"exactly K skipped and N−K used" names a report that does not exist. -/
theorem directRequirements_no_skip_report :
    aMatrixBuildDiagnostics
      = ["A matrix shape", "Non-zero elements", "Sparsity", "Max coefficient"]
    ∧ (∀ d ∈ aMatrixBuildDiagnostics, ¬ (containsSub (lowerStr d) "skip" = true))
    ∧ (∀ d ∈ aMatrixBuildDiagnostics, ¬ (containsSub (lowerStr d) "used" = true)) := by
  refine ⟨rfl, ?_, ?_⟩ <;> decide

/-! ## Sector index construction
(`calculate_multipliers_python.py`, lines 34–58)

`sector_info` is built by iterating the first-occurrence-deduplicated
`(FlowID, Flow)` pairs of the A-matrix table and keying on the stripped
sector code (each new pair overwrites the stored entry); `sector_codes` is
the sorted key list and `sector_to_idx` enumerates it.  Python compares
strings lexicographically by code point: `strLtData` is that comparison on
the character lists, and `strLeB` the corresponding `≤`, proved below to
agree with Mathlib's linear order on `String`. -/

theorem mem_dedupF {α : Type} [DecidableEq α] (a : α) (l : List α) :
    a ∈ dedupF l ↔ a ∈ l := by
  induction l with
  | nil => simp [dedupF]
  | cons x xs ih =>
    simp only [dedupF, List.mem_cons, List.mem_filter, decide_eq_true_eq, ih]
    by_cases h : a = x
    · simp [h]
    · simp [h]

theorem nodup_dedupF {α : Type} [DecidableEq α] (l : List α) :
    (dedupF l).Nodup := by
  induction l with
  | nil => simp [dedupF]
  | cons x xs ih =>
    refine List.Nodup.cons ?_ (ih.filter _)
    intro hmem
    have := (List.mem_filter.mp hmem).2
    simp at this

/-- Lexicographic code-point comparison of character lists: the order
Python's `sorted` uses on strings. -/
def strLtData : List Char → List Char → Bool
  | [], [] => false
  | [], _ :: _ => true
  | _ :: _, [] => false
  | a :: as, b :: bs =>
    if a.toNat < b.toNat then true
    else if b.toNat < a.toNat then false
    else strLtData as bs

/-- `a ≤ b` for strings, via `strLtData`. -/
def strLeB (a b : String) : Bool := !(strLtData b.data a.data)

theorem charLt_iff (a b : Char) : (a.toNat < b.toNat) ↔ a < b := Iff.rfl

theorem charEq_of_nat (a b : Char) (h1 : ¬ a.toNat < b.toNat)
    (h2 : ¬ b.toNat < a.toNat) : a = b :=
  Char.ext_iff.mpr
    (UInt32.toNat.inj (Nat.le_antisymm (Nat.not_lt.mp h2) (Nat.not_lt.mp h1)))

theorem strLtData_iff : ∀ x y : List Char, strLtData x y = true ↔ x < y := by
  intro x
  induction x with
  | nil =>
    intro y
    cases y with
    | nil =>
      simp only [strLtData, Bool.false_eq_true, false_iff]
      intro h
      cases h
    | cons b bs =>
      simp only [strLtData, true_iff]
      exact List.Lex.nil
  | cons a as ih =>
    intro y
    cases y with
    | nil =>
      simp only [strLtData, Bool.false_eq_true, false_iff]
      intro h
      cases h
    | cons b bs =>
      simp only [strLtData]
      by_cases h1 : a.toNat < b.toNat
      · simp only [if_pos h1, true_iff]
        exact List.Lex.rel ((charLt_iff a b).mp h1)
      · by_cases h2 : b.toNat < a.toNat
        · simp only [if_neg h1, if_pos h2, Bool.false_eq_true, false_iff]
          intro hlt
          cases hlt with
          | cons h => exact absurd h2 (Nat.lt_irrefl _)
          | rel h => exact h1 ((charLt_iff a b).mpr h)
        · have hab : a = b := charEq_of_nat a b h1 h2
          subst hab
          simp only [if_neg h1, if_neg h2, ih bs]
          constructor
          · intro h
            exact List.Lex.cons h
          · intro hlt
            cases hlt with
            | cons h => exact h
            | rel h => exact absurd ((charLt_iff a a).mpr h) h1

theorem strLeB_iff (a b : String) : strLeB a b = true ↔ a ≤ b := by
  rw [strLeB, Bool.not_eq_true']
  rw [show (a ≤ b) ↔ ¬ b < a from Iff.rfl]
  rw [String.lt_iff_toList_lt]
  rw [show b.toList = b.data from rfl, show a.toList = a.data from rfl]
  rw [← strLtData_iff b.data a.data]
  simp

/-- The sorting relation used for `sorted(sector_info.keys())`. -/
def strLe (a b : String) : Prop := strLeB a b = true

instance : DecidableRel strLe := fun a b => instDecidableEqBool (strLeB a b) true

theorem strLe_iff (a b : String) : strLe a b ↔ a ≤ b := strLeB_iff a b

instance : IsTotal String strLe :=
  ⟨fun a b => by
    rcases le_total a b with h | h
    · exact Or.inl ((strLe_iff a b).mpr h)
    · exact Or.inr ((strLe_iff b a).mpr h)⟩

instance : IsTrans String strLe :=
  ⟨fun a b c hab hbc =>
    (strLe_iff a c).mpr (le_trans ((strLe_iff a b).mp hab) ((strLe_iff b c).mp hbc))⟩

/-- `sector_codes = sorted(sector_info.keys())` (source lines 34–57): the
keys are the `/US`-stripped `FlowID` codes of the deduplicated
`(FlowID, Flow)` pairs, deduplicated in dict-insertion order, then sorted
under the lexicographic string order. -/
def sectorCodesOf (rows : List (String × String)) : List String :=
  (dedupF ((dedupF rows).map (fun r => stripUS r.1))).insertionSort strLe

/-- `sector_to_idx = {code: i for i, code in enumerate(sector_codes)}`
(source line 58): position of the code in the sorted code list. -/
def sectorToIdx (rows : List (String × String)) (code : String) : Nat :=
  (sectorCodesOf rows).indexOf code

/-- **C7.** Sector index construction dedupes the producing-sector codes of
the transaction rows, sorts them under the total order on code strings, and
assigns dense indices in sorted order (the index of the i-th sorted code is
i); the construction is a pure function of the input, so two runs on the
same input assign identical code-to-index assignments. -/
theorem sectorIndex_sorted_dedup_deterministic
    (rows rows' : List (String × String)) :
    (sectorCodesOf rows).Sorted (· ≤ ·)
    ∧ (sectorCodesOf rows).Nodup
    ∧ (∀ c, c ∈ sectorCodesOf rows ↔ ∃ r ∈ rows, stripUS r.1 = c)
    ∧ (∀ i : Nat, ∀ h : i < (sectorCodesOf rows).length,
        sectorToIdx rows ((sectorCodesOf rows).get ⟨i, h⟩) = i)
    ∧ (rows = rows' → sectorCodesOf rows = sectorCodesOf rows'
        ∧ ∀ c, sectorToIdx rows c = sectorToIdx rows' c) := by
  have hnd : (sectorCodesOf rows).Nodup := by
    unfold sectorCodesOf
    exact ((List.perm_insertionSort strLe _).nodup_iff).mpr (nodup_dedupF _)
  refine ⟨?_, hnd, ?_, ?_, ?_⟩
  · have h := List.sorted_insertionSort strLe
      (dedupF ((dedupF rows).map (fun r => stripUS r.1)))
    exact h.imp (fun hab => (strLe_iff _ _).mp hab)
  · intro c
    unfold sectorCodesOf
    rw [(List.perm_insertionSort strLe _).mem_iff, mem_dedupF]
    constructor
    · intro hc
      obtain ⟨r, hr, hrc⟩ := List.mem_map.mp hc
      exact ⟨r, (mem_dedupF r rows).mp hr, hrc⟩
    · intro ⟨r, hr, hrc⟩
      exact List.mem_map.mpr ⟨r, (mem_dedupF r rows).mpr hr, hrc⟩
  · intro i h
    unfold sectorToIdx
    rw [List.get_eq_getElem]
    exact List.indexOf_getElem hnd i h
  · intro h
    subst h
    exact ⟨rfl, fun _ => rfl⟩

/-- Witness for `sectorIndex_sorted_dedup_deterministic`: on the input
`[("B/US", "b"), ("A/US", "a"), ("B/US", "b2")]` the code list is the
sorted deduplication `["A", "B"]`; the code at index 1 is `"B"` and
`sectorToIdx` maps it back to 1; a second run yields the same index for
`"B"`. -/
theorem sectorIndex_witness :
    sectorCodesOf [("B/US", "b"), ("A/US", "a"), ("B/US", "b2")] = ["A", "B"]
    ∧ sectorToIdx [("B/US", "b"), ("A/US", "a"), ("B/US", "b2")] "B" = 1 := by
  have hcodes : sectorCodesOf [("B/US", "b"), ("A/US", "a"), ("B/US", "b2")]
      = ["A", "B"] := by decide
  have h1 := (sectorIndex_sorted_dedup_deterministic
    [("B/US", "b"), ("A/US", "a"), ("B/US", "b2")]
    [("B/US", "b"), ("A/US", "a"), ("B/US", "b2")]).2.2.2.1 1 (by decide)
  refine ⟨hcodes, ?_⟩
  have hget : (sectorCodesOf [("B/US", "b"), ("A/US", "a"), ("B/US", "b2")]).get
      ⟨1, by decide⟩ = "B" := by decide
  rw [← hget]
  exact h1

/-! ## Sector display names (`calculate_multipliers_python.py`, lines 34–50) -/

/-- The name-cleaning of source lines 39–44: take the part before `'('` and
strip it when the name has both parentheses, then remove `' - US'`. -/
def cleanName (name : String) : String :=
  let n1 : List Char :=
    if name.data.contains '(' && name.data.contains ')' then
      trimChars (name.data.takeWhile (fun c => c ≠ '('))
    else name.data
  let n2 : List Char :=
    if hasSubAux [' ', '-', ' ', 'U', 'S'] n1 then stripDashUSAux n1 else n1
  ⟨n2⟩

/-- The per-pair dictionary update of source lines 46–50:
`sector_info[sector_code] = {..., 'name': sector_name, ...}` overwrites
unconditionally. -/
def sectorNameUpd (m : String → Option String) (r : String × String) :
    String → Option String :=
  fun c => if c = stripUS r.1 then some (cleanName r.2) else m c

/-- The name stored per sector code after iterating the deduplicated
`(FlowID, Flow)` pairs (pandas `drop_duplicates` keeps the first occurrence
of each pair; the dict update overwrites on every pair). -/
def sectorNames (rows : List (String × String)) : String → Option String :=
  (dedupF rows).foldl sectorNameUpd (fun _ => none)

theorem foldl_sectorNameUpd (l : List (String × String))
    (m : String → Option String) (c : String) :
    (l.foldl sectorNameUpd m) c
      = match l.reverse.find? (fun r => stripUS r.1 == c) with
        | some r => some (cleanName r.2)
        | none => m c := by
  induction l generalizing m with
  | nil => simp
  | cons r rs ih =>
    simp only [List.foldl_cons, ih, List.reverse_cons, List.find?_append]
    cases hfind : rs.reverse.find? (fun r => stripUS r.1 == c) with
    | some x => simp [hfind]
    | none =>
      simp only [hfind, Option.none_orElse]
      by_cases hc : stripUS r.1 = c
      · simp [List.find?, hc, sectorNameUpd]
      · have hb : (stripUS r.1 == c) = false := beq_eq_false_iff_ne.mpr hc
        simp only [List.find?, hb, sectorNameUpd]
        rw [if_neg (fun h => hc h.symm)]
        rfl

/-- **C8 (amended).** For a sector code appearing with several distinct
display names, the sector index retains the (cleaned) name of the *last*
`(FlowID, Flow)` pair for that code in the deduplicated pair sequence —
each later pair overwrites the stored name — not the first non-empty name;
no non-emptiness check or logging of dropped names exists. -/
theorem sectorNames_last_name_wins (rows : List (String × String)) (c : String) :
    sectorNames rows c
      = ((dedupF rows).reverse.find? (fun r => stripUS r.1 == c)).map
          (fun r => cleanName r.2) := by
  rw [sectorNames, foldl_sectorNameUpd]
  cases hfind : (dedupF rows).reverse.find? (fun r => stripUS r.1 == c) with
  | some x => simp
  | none => simp

/-- **C8 (counterexample).** The code `001` appears first with name
`"Alpha"` and then with name `"Beta"`: the index stores `"Beta"`, so the
first name seen is *not* retained. -/
theorem sectorNames_first_name_dropped :
    sectorNames [("001/US", "Alpha"), ("001/US", "Beta")] "001" = some "Beta"
    ∧ sectorNames [("001/US", "Alpha"), ("001/US", "Beta")] "001" ≠ some "Alpha" := by
  constructor
  · decide
  · decide

/-! ## Leontief inversion (`calculate_multipliers_python.py`, lines 95–104)

`np.linalg.inv` raises `LinAlgError` exactly on a singular matrix (modelled
in exact rational arithmetic: determinant zero); the `except` clause then
assigns `L = np.linalg.pinv(I - A)` and execution continues.  The
pseudo-inverse is an external `numpy` routine whose value the script never
inspects; it is modelled symbolically as the constructor `pseudoInverseOf`
applied to its argument. -/

/-- Executable matrix inverse over `ℚ` (the value `np.linalg.inv` returns
for a non-singular matrix): `A⁻¹ = det⁻¹ • adjugate A`. -/
def npInvMat {n : ℕ} (A : Matrix (Fin n) (Fin n) ℚ) : Matrix (Fin n) (Fin n) ℚ :=
  (A.det)⁻¹ • A.adjugate

theorem npInvMat_eq_inv {n : ℕ} (A : Matrix (Fin n) (Fin n) ℚ) :
    npInvMat A = A⁻¹ := by
  rw [npInvMat, Matrix.inv_def, Ring.inverse_eq_inv]

/-- The value bound to `L` by the `try/except` of source lines 96–104. -/
inductive LeontiefL (n : ℕ) : Type where
  | inverse (L : Matrix (Fin n) (Fin n) ℚ)
  | pseudoInverseOf (M : Matrix (Fin n) (Fin n) ℚ)

/-- The Leontief step: try `inv(I - A)`; on singularity fall back to
`pinv(I - A)`.  The function is total: the `except` clause means neither
branch raises. -/
def leontiefStep {n : ℕ} (A : Matrix (Fin n) (Fin n) ℚ) : LeontiefL n :=
  if (1 - A).det = 0 then .pseudoInverseOf (1 - A) else .inverse (npInvMat (1 - A))

/-- The keys of the `multipliers_output` dictionary literal of source lines
223–238 — the complete final multiplier output. -/
def multipliersOutputKeys : List String :=
  ["description", "note", "methodology", "data_sources", "calculation_date",
   "model_version", "python_implementation", "units", "sectors"]

/-- The keys of each per-sector entry of the multiplier output (source
lines 250–256). -/
def sectorEntryKeys : List String :=
  ["name", "GHG", "Energy", "Water", "Land"]

/-- **C3 (amended).** For every `A` whose `(I - A)` is singular (the direct
solve raises a singularity error, modelled exactly as determinant zero),
the Leontief step falls back to the Moore–Penrose pseudo-inverse of
`(I - A)` and completes instead of raising; but no `degraded` flag is set:
neither the final multiplier output nor its per-sector entries carry any
`degraded` key — the only signal is a console warning. -/
theorem leontief_pinv_fallback {n : ℕ} (A : Matrix (Fin n) (Fin n) ℚ)
    (h : (1 - A).det = 0) :
    leontiefStep A = .pseudoInverseOf (1 - A)
    ∧ "degraded" ∉ multipliersOutputKeys
    ∧ "degraded" ∉ sectorEntryKeys := by
  refine ⟨?_, by decide, by decide⟩
  rw [leontiefStep, if_pos h]

/-- Witness for `leontief_pinv_fallback`: the 1×1 all-ones matrix `A = [1]`
makes `I - A = [0]` singular; the step returns the pseudo-inverse branch. -/
theorem leontief_pinv_fallback_witness :
    leontiefStep (1 : Matrix (Fin 1) (Fin 1) ℚ)
        = .pseudoInverseOf (1 - 1)
    ∧ "degraded" ∉ multipliersOutputKeys := by
  have h := leontief_pinv_fallback (1 : Matrix (Fin 1) (Fin 1) ℚ)
    (by simp [Matrix.det_fin_one])
  exact ⟨h.1, h.2.1⟩

/-- **C3 (counterexample to the degraded flag).** The final multiplier
output dictionary has exactly the nine keys of source lines 223–238 and
each sector entry exactly the five keys of lines 250–256; no `degraded`
flag exists anywhere in the output, so the claimed propagation of
`degraded=true` is refuted. -/
theorem multipliers_output_no_degraded_key :
    multipliersOutputKeys
      = ["description", "note", "methodology", "data_sources",
         "calculation_date", "model_version", "python_implementation",
         "units", "sectors"]
    ∧ sectorEntryKeys = ["name", "GHG", "Energy", "Water", "Land"]
    ∧ "degraded" ∉ multipliersOutputKeys
    ∧ "degraded" ∉ sectorEntryKeys := by
  refine ⟨rfl, rfl, by decide, by decide⟩

/-! ## The impact applier (`backend/app/core/calculator.py`)

`DIOCalculator.calculate` (lines 77–151) walks the spending dict (an
insertion-ordered association list), skips sector codes without multipliers,
accumulates per-category totals, and formats per-sector and total impact
entries.  The per-category multiplier lookup `getattr(multipliers,
category, 0)` defaults to 0, but the unit lookup `self.units[cat]` raises
`KeyError` for an unknown category; `calculate` is therefore modelled in
`Except String`. -/

structure ImpactMultipliers where
  GHG : ℚ
  Energy : ℚ
  Water : ℚ
  Land : ℚ
deriving DecidableEq

/-- `getattr(multipliers, category, 0)` (line 115). -/
def getattrMult (m : ImpactMultipliers) (cat : String) : ℚ :=
  if cat = "GHG" then m.GHG
  else if cat = "Energy" then m.Energy
  else if cat = "Water" then m.Water
  else if cat = "Land" then m.Land
  else 0

/-- `self.units` as initialised in `__init__` (lines 39–44), before any
extra units are loaded from the data file. -/
def initUnits : String → Option String := fun c =>
  if c = "GHG" then some "kg CO2 eq"
  else if c = "Energy" then some "MJ"
  else if c = "Water" then some "gallons"
  else if c = "Land" then some "m2-year"
  else none

/-- The default `impact_categories` (line 93). -/
def defaultCategories : List String := ["GHG", "Energy", "Water", "Land"]

/-- `_get_category_name` (lines 153–161). -/
def catName (code : String) : String :=
  if code = "GHG" then "Greenhouse Gas Emissions"
  else if code = "Energy" then "Energy Use"
  else if code = "Water" then "Water Consumption"
  else if code = "Land" then "Land Use"
  else code

/-- `_get_category_description` (lines 163–171). -/
def catDesc (code : String) : String :=
  if code = "GHG" then "Total CO2 equivalent emissions"
  else if code = "Energy" then "Total energy consumption"
  else if code = "Water" then "Total freshwater use"
  else if code = "Land" then "Total land occupation"
  else ""

structure ImpactEntry where
  category : String
  value : ℚ
  unit : String
  description : String
deriving DecidableEq

structure SectorBreakdownEntry where
  name : String
  spending : ℚ
  impacts : List ImpactEntry
deriving DecidableEq

structure CalcResult where
  total_spending : ℚ
  impacts : List ImpactEntry
  sector_breakdown : List (String × SectorBreakdownEntry)
  model_version : String
deriving DecidableEq

/-- The keys of the dict returned by `calculate` (lines 146–151). -/
def calcResultKeys : List String :=
  ["total_spending", "impacts", "sector_breakdown", "model_version"]

/-- The impact-entry list comprehension (lines 124–132 and 136–144): one
entry per category in order, raising `KeyError` at the first category
missing from `units`. -/
def mkEntries (units : String → Option String) (v : String → ℚ) :
    List String → Except String (List ImpactEntry)
  | [] => .ok []
  | c :: cs =>
    match units c with
    | none => .error ("KeyError: " ++ c)
    | some u =>
      match mkEntries units v cs with
      | .error e => .error e
      | .ok es => .ok (⟨catName c, v c, u, catDesc c⟩ :: es)

/-- The body of the `for sector_code, amount in sector_spending.items()`
loop (lines 102–133): skip sectors without multipliers; otherwise update
the per-category totals and append the sector's breakdown entry. -/
def processSector (units : String → Option String)
    (mult : String → Option ImpactMultipliers)
    (names : String → Option String) (cats : List String)
    (acc : (String → ℚ) × List (String × SectorBreakdownEntry))
    (sc : String × ℚ) :
    Except String ((String → ℚ) × List (String × SectorBreakdownEntry)) :=
  match mult sc.1 with
  | none => .ok acc
  | some m =>
    let st := sc.2 / 1000
    let totals : String → ℚ := cats.foldl
      (fun t c => fun x => if x = c then t x + getattrMult m c * st else t x)
      acc.1
    match mkEntries units (fun c => getattrMult m c * st) cats with
    | .error e => .error e
    | .ok impacts =>
      .ok (totals,
        acc.2 ++ [(sc.1,
          ⟨(names sc.1).getD ("Sector " ++ sc.1), sc.2, impacts⟩)])

/-- `DIOCalculator.calculate` (lines 77–151). -/
def calculate (units : String → Option String)
    (mult : String → Option ImpactMultipliers)
    (names : String → Option String)
    (spending : List (String × ℚ)) (cats : List String) :
    Except String CalcResult :=
  let totalSpending := (spending.map Prod.snd).sum
  match spending.foldlM (processSector units mult names cats)
      (fun _ => (0 : ℚ), ([] : List (String × SectorBreakdownEntry))) with
  | .error e => .error e
  | .ok acc =>
    match mkEntries units (fun c => acc.1 c) cats with
    | .error e => .error e
    | .ok impacts => .ok ⟨totalSpending, impacts, acc.2, "DIO v2.0"⟩

/-! ### Linearity of `calculate` in the spending vector -/

/-- Scale the value of an impact entry. -/
def scaleEntry (k : ℚ) (e : ImpactEntry) : ImpactEntry :=
  ⟨e.category, k * e.value, e.unit, e.description⟩

/-- Scale a sector-breakdown entry: spending and impact values. -/
def scaleBD (k : ℚ) (b : String × SectorBreakdownEntry) :
    String × SectorBreakdownEntry :=
  (b.1, ⟨b.2.name, k * b.2.spending, b.2.impacts.map (scaleEntry k)⟩)

/-- Scale a whole `calculate` result: total spending, total impact values,
per-sector spending and per-sector impact values. -/
def scaleResult (k : ℚ) (r : CalcResult) : CalcResult :=
  ⟨k * r.total_spending, r.impacts.map (scaleEntry k),
    r.sector_breakdown.map (scaleBD k), r.model_version⟩

theorem mkEntries_scale (units : String → Option String) (k : ℚ)
    (v : String → ℚ) :
    ∀ cats : List String,
      mkEntries units (fun c => k * v c) cats
        = Except.map (List.map (scaleEntry k)) (mkEntries units v cats) := by
  intro cats
  induction cats with
  | nil => rfl
  | cons c cs ih =>
    simp only [mkEntries]
    cases hu : units c with
    | none => rfl
    | some u =>
      rw [ih]
      cases hmk : mkEntries units v cs with
      | error e => rfl
      | ok es => rfl

theorem totals_scale (g : String → ℚ) (st k : ℚ) :
    ∀ (cats : List String) (t : String → ℚ),
      cats.foldl
        (fun t c => fun x => if x = c then t x + g c * (k * st) else t x)
        (fun x => k * t x)
      = fun x => k *
          (cats.foldl
            (fun t c => fun x => if x = c then t x + g c * st else t x) t) x := by
  intro cats
  induction cats with
  | nil => intro t; rfl
  | cons c cs ih =>
    intro t
    simp only [List.foldl_cons]
    rw [show (fun x => if x = c then (fun x => k * t x) x + g c * (k * st)
          else (fun x => k * t x) x)
        = fun x => k * ((fun x => if x = c then t x + g c * st else t x) x) from
      funext fun x => by
        by_cases hx : x = c
        · simp only [hx, if_pos]
          ring
        · simp [hx]]
    exact ih _

theorem processSector_scale (units : String → Option String)
    (mult : String → Option ImpactMultipliers)
    (names : String → Option String) (cats : List String) (k : ℚ)
    (t : String → ℚ) (bd : List (String × SectorBreakdownEntry))
    (sc : String × ℚ) :
    processSector units mult names cats
        (fun x => k * t x, bd.map (scaleBD k)) (sc.1, k * sc.2)
      = Except.map
          (fun acc => (fun x => k * acc.1 x, acc.2.map (scaleBD k)))
          (processSector units mult names cats (t, bd) sc) := by
  cases hm : mult sc.1 with
  | none => simp [processSector, hm, Except.map]
  | some m =>
    simp only [processSector, hm]
    rw [show (k * sc.2) / 1000 = k * (sc.2 / 1000) from by ring]
    rw [totals_scale (fun c => getattrMult m c) (sc.2 / 1000) k cats t]
    rw [show (fun c => getattrMult m c * (k * (sc.2 / 1000)))
        = fun c => k * (getattrMult m c * (sc.2 / 1000)) from
      funext fun c => by ring]
    rw [mkEntries_scale units k (fun c => getattrMult m c * (sc.2 / 1000)) cats]
    cases hmk : mkEntries units (fun c => getattrMult m c * (sc.2 / 1000)) cats with
    | error e => rfl
    | ok es =>
      simp only [Except.map, List.map_append]
      rfl

theorem foldlM_scale (units : String → Option String)
    (mult : String → Option ImpactMultipliers)
    (names : String → Option String) (cats : List String) (k : ℚ) :
    ∀ (spending : List (String × ℚ)) (t : String → ℚ)
      (bd : List (String × SectorBreakdownEntry)),
      (spending.map (fun p => (p.1, k * p.2))).foldlM
          (processSector units mult names cats)
          (fun x => k * t x, bd.map (scaleBD k))
        = Except.map
            (fun acc => (fun x => k * acc.1 x, acc.2.map (scaleBD k)))
            (spending.foldlM (processSector units mult names cats) (t, bd)) := by
  intro spending
  induction spending with
  | nil => intro t bd; rfl
  | cons p ps ih =>
    intro t bd
    simp only [List.map_cons, List.foldlM_cons]
    rw [processSector_scale units mult names cats k t bd p]
    cases hps : processSector units mult names cats (t, bd) p with
    | error e => rfl
    | ok acc' =>
      simp only [Except.map]
      exact ih acc'.1 acc'.2

theorem sum_map_mul (k : ℚ) : ∀ (l : List (String × ℚ)),
    ((l.map (fun p => (p.1, k * p.2))).map Prod.snd).sum
      = k * (l.map Prod.snd).sum := by
  intro l
  induction l with
  | nil => simp
  | cons p ps ih =>
    simp only [List.map_cons, List.sum_cons, ih]
    ring

theorem calculate_smul (units : String → Option String)
    (mult : String → Option ImpactMultipliers)
    (names : String → Option String)
    (spending : List (String × ℚ)) (cats : List String) (k : ℚ) :
    calculate units mult names (spending.map (fun p => (p.1, k * p.2))) cats
      = Except.map (scaleResult k) (calculate units mult names spending cats) := by
  simp only [calculate]
  rw [sum_map_mul k spending]
  conv_lhs =>
    rw [show ((fun _ => (0 : ℚ)), ([] : List (String × SectorBreakdownEntry)))
        = ((fun x => k * (fun _ => (0 : ℚ)) x),
           ([] : List (String × SectorBreakdownEntry)).map (scaleBD k)) from by
      refine congrArg₂ Prod.mk (funext fun x => by ring) rfl]
    rw [foldlM_scale units mult names cats k spending (fun _ => 0) []]
  cases hf : spending.foldlM (processSector units mult names cats)
      (fun _ => (0 : ℚ), ([] : List (String × SectorBreakdownEntry))) with
  | error e => rfl
  | ok acc =>
    simp only [Except.map]
    rw [show (fun c => (fun x => k * acc.1 x) c) = fun c => k * acc.1 c from rfl]
    rw [mkEntries_scale units k (fun c => acc.1 c) cats]
    cases hmk : mkEntries units (fun c => acc.1 c) cats with
    | error e => rfl
    | ok es => rfl

/-- **C9.** `calculate` is linear in the spending dict: doubling every
amount doubles the total spending, every total impact value, every
per-sector spending and every per-sector impact value, and leaves all
names, units and descriptions unchanged (exactly, in rational
arithmetic). -/
theorem calculate_linear_in_spending (units : String → Option String)
    (mult : String → Option ImpactMultipliers)
    (names : String → Option String)
    (spending : List (String × ℚ)) (cats : List String) :
    calculate units mult names (spending.map (fun p => (p.1, 2 * p.2))) cats
      = Except.map (scaleResult 2) (calculate units mult names spending cats) :=
  calculate_smul units mult names spending cats 2

/-! ### Unknown sectors are skipped without any unmapped-spending report -/

/-- The four impact entries produced for the default categories under the
initial units, for a given per-category value function. -/
def defaultEntries (v : String → ℚ) : List ImpactEntry :=
  [⟨"Greenhouse Gas Emissions", v "GHG", "kg CO2 eq",
      "Total CO2 equivalent emissions"⟩,
   ⟨"Energy Use", v "Energy", "MJ", "Total energy consumption"⟩,
   ⟨"Water Consumption", v "Water", "gallons", "Total freshwater use"⟩,
   ⟨"Land Use", v "Land", "m2-year", "Total land occupation"⟩]

theorem mkEntries_default (v : String → ℚ) :
    mkEntries initUnits v defaultCategories = .ok (defaultEntries v) := rfl

/-- **C4 (amended).** For a spending dict with one sector known to the
multiplier table and one unknown, `calculate` (with the default categories
and the initial units) returns without raising; `total_spending` includes
both amounts; `sector_breakdown` contains only the known sector; but no
unmapped-spending amount is reported: the result dict has exactly the keys
`total_spending`, `impacts`, `sector_breakdown`, `model_version` — the
unknown entry is silently skipped. -/
theorem calculate_unknown_sector_skipped
    (mult : String → Option ImpactMultipliers)
    (names : String → Option String) (k u : String) (a b : ℚ)
    (m : ImpactMultipliers) (hk : mult k = some m) (hu : mult u = none) :
    ∃ r : CalcResult,
      calculate initUnits mult names [(k, a), (u, b)] defaultCategories
          = .ok r
        ∧ r.total_spending = a + b
        ∧ r.sector_breakdown.map Prod.fst = [k]
        ∧ "unmapped_spending" ∉ calcResultKeys := by
  have hcalc : calculate initUnits mult names [(k, a), (u, b)] defaultCategories
      = .ok ⟨a + (b + 0),
          defaultEntries (fun c => (defaultCategories.foldl
            (fun t c => fun x =>
              if x = c then t x + getattrMult m c * (a / 1000) else t x)
            (fun _ => 0)) c),
          [(k, ⟨(names k).getD ("Sector " ++ k), a,
            defaultEntries (fun c => getattrMult m c * (a / 1000))⟩)],
          "DIO v2.0"⟩ := by
    simp only [calculate, List.foldlM_cons, List.foldlM_nil, List.map_cons,
      List.map_nil, List.sum_cons, List.sum_nil]
    simp only [processSector, hk, hu, mkEntries_default]
    rfl
  refine ⟨_, hcalc, ?_, by simp, by decide⟩
  simp only
  ring

/-- Witness for `calculate_unknown_sector_skipped`: sector `336411` has
multipliers, `999999` does not; spending 1000 and 500 gives total 1500,
breakdown only for `336411`, and no unmapped-spending key. -/
theorem calculate_unknown_sector_skipped_witness :
    ∃ r : CalcResult,
      calculate initUnits
          (fun c => if c = "336411" then some ⟨1, 2, 3, 4⟩ else none)
          (fun _ => none) [("336411", 1000), ("999999", 500)]
          defaultCategories = .ok r
        ∧ r.total_spending = 1000 + 500
        ∧ r.sector_breakdown.map Prod.fst = ["336411"]
        ∧ "unmapped_spending" ∉ calcResultKeys :=
  calculate_unknown_sector_skipped
    (fun c => if c = "336411" then some ⟨1, 2, 3, 4⟩ else none)
    (fun _ => none) "336411" "999999" 1000 500 ⟨1, 2, 3, 4⟩
    (by simp) (by simp)

/-- **C4 (counterexample to the unmapped-spending report).** The dict
returned by `calculate` (source lines 146–151) has exactly the four keys
`total_spending`, `impacts`, `sector_breakdown`, `model_version`: no
unmapped-spending amount is reported anywhere in the result. -/
theorem calculate_result_no_unmapped_key :
    calcResultKeys
        = ["total_spending", "impacts", "sector_breakdown", "model_version"]
    ∧ "unmapped_spending" ∉ calcResultKeys
    ∧ "unmapped spending" ∉ calcResultKeys := by
  refine ⟨rfl, by decide, by decide⟩

/-! ### Unknown impact categories raise `KeyError` -/

theorem mkEntries_error_shape (units : String → Option String) (v : String → ℚ) :
    ∀ (cats : List String) (e : String),
      mkEntries units v cats = .error e
        → ∃ c, units c = none ∧ e = "KeyError: " ++ c := by
  intro cats
  induction cats with
  | nil =>
    intro e h
    exact absurd h (by simp [mkEntries])
  | cons c cs ih =>
    intro e h
    simp only [mkEntries] at h
    cases hu : units c with
    | none =>
      rw [hu] at h
      exact ⟨c, hu, (Except.error.inj h).symm⟩
    | some u =>
      rw [hu] at h
      cases hmk : mkEntries units v cs with
      | error e2 =>
        rw [hmk] at h
        obtain ⟨c2, hc2, he2⟩ := ih e2 hmk
        exact ⟨c2, hc2, (Except.error.inj h).symm.trans he2⟩
      | ok es =>
        rw [hmk] at h
        exact absurd h (by simp)

theorem mkEntries_error_of_missing (units : String → Option String)
    (v : String → ℚ) :
    ∀ (cats : List String) (c : String), c ∈ cats → units c = none →
      ∃ e, mkEntries units v cats = .error e := by
  intro cats
  induction cats with
  | nil =>
    intro c hc
    exact absurd hc (by simp)
  | cons d ds ih =>
    intro c hc hn
    simp only [mkEntries]
    cases hu : units d with
    | none => exact ⟨"KeyError: " ++ d, rfl⟩
    | some u =>
      rcases List.mem_cons.mp hc with hcd | hcds
      · rw [hcd] at hn
        rw [hn] at hu
        exact absurd hu (by simp)
      · obtain ⟨e, he⟩ := ih c hcds hn
        rw [he]
        exact ⟨e, rfl⟩

theorem processSector_error_shape (units : String → Option String)
    (mult : String → Option ImpactMultipliers)
    (names : String → Option String) (cats : List String)
    (acc : (String → ℚ) × List (String × SectorBreakdownEntry))
    (sc : String × ℚ) (e : String) :
    processSector units mult names cats acc sc = .error e
      → ∃ c, units c = none ∧ e = "KeyError: " ++ c := by
  intro h
  simp only [processSector] at h
  cases hm : mult sc.1 with
  | none =>
    rw [hm] at h
    dsimp only at h
    exact absurd h (by simp)
  | some m =>
    rw [hm] at h
    dsimp only at h
    cases hmk : mkEntries units (fun c => getattrMult m c * (sc.2 / 1000)) cats with
    | error e2 =>
      rw [hmk] at h
      dsimp only at h
      exact (Except.error.inj h).symm ▸ mkEntries_error_shape units _ cats e2 hmk
    | ok es =>
      rw [hmk] at h
      exact absurd h (by simp)

theorem foldlM_error_shape (units : String → Option String)
    (mult : String → Option ImpactMultipliers)
    (names : String → Option String) (cats : List String) :
    ∀ (spending : List (String × ℚ))
      (acc : (String → ℚ) × List (String × SectorBreakdownEntry)) (e : String),
      spending.foldlM (processSector units mult names cats) acc = .error e
        → ∃ c, units c = none ∧ e = "KeyError: " ++ c := by
  intro spending
  induction spending with
  | nil =>
    intro acc e h
    exact absurd h (by simp [List.foldlM_nil, pure, Except.pure])
  | cons p ps ih =>
    intro acc e h
    rw [List.foldlM_cons] at h
    cases hp : processSector units mult names cats acc p with
    | error e2 =>
      rw [hp] at h
      have he : e2 = e := Except.error.inj h
      exact he ▸ processSector_error_shape units mult names cats acc p e2 hp
    | ok acc2 =>
      rw [hp] at h
      exact ih acc2 e h

/-- **C10.** Passing an `impact_categories` list containing a category
absent from the calculator's units mapping (anything other than `GHG`,
`Energy`, `Water`, `Land` when no extra units were loaded) makes
`calculate` raise a `KeyError` from the units lookup instead of returning
a result — for every spending dict, including the empty one — because the
per-category multiplier lookup defaults to 0 but the unit lookup does
not. -/
theorem calculate_unknown_category_keyerror
    (mult : String → Option ImpactMultipliers)
    (names : String → Option String) (spending : List (String × ℚ))
    (cats : List String) (c : String) (hc : c ∈ cats)
    (hn : initUnits c = none) :
    ∃ c', initUnits c' = none
      ∧ calculate initUnits mult names spending cats
          = .error ("KeyError: " ++ c') := by
  cases hf : spending.foldlM (processSector initUnits mult names cats)
      (fun _ => (0 : ℚ), ([] : List (String × SectorBreakdownEntry))) with
  | error e =>
    obtain ⟨c', hc', he⟩ := foldlM_error_shape initUnits mult names cats
      spending _ e hf
    refine ⟨c', hc', ?_⟩
    simp only [calculate]
    rw [hf]
    dsimp only
    rw [← he]
  | ok acc =>
    obtain ⟨e, hmk⟩ := mkEntries_error_of_missing initUnits
      (fun x => acc.1 x) cats c hc hn
    obtain ⟨c', hc', he⟩ := mkEntries_error_shape initUnits
      (fun x => acc.1 x) cats e hmk
    refine ⟨c', hc', ?_⟩
    simp only [calculate]
    rw [hf]
    dsimp only
    rw [hmk]
    dsimp only
    rw [← he]

/-- Witness for `calculate_unknown_category_keyerror`: asking for the
category `"Toxics"` with an empty spending dict raises
`KeyError: Toxics`. -/
theorem calculate_unknown_category_keyerror_witness :
    ∃ c', initUnits c' = none
      ∧ calculate initUnits (fun _ => none) (fun _ => none) [] ["Toxics"]
          = .error ("KeyError: " ++ c') :=
  calculate_unknown_category_keyerror (fun _ => none) (fun _ => none) []
    ["Toxics"] "Toxics" (by simp) (by decide)

/-! ## The banded energy supply-chain multiplier
(`calculate_leontief_energy.py`, lines 84–151) -/

/-- The defense-manufacturing keyword list of source line 121. -/
def defenseKws : List String :=
  ["aircraft", "missile", "ship", "vessel", "vehicle", "tank"]

/-- `get_io_multiplier(naics_code, sector_name, direct_intensity)`:
literature-banded Leontief total-requirements multiplier and its source
description. -/
def get_io_multiplier (naics_code sector_name : String)
    (direct_intensity : ℚ) : ℚ × String :=
  let code_str := naics_code
  let name_lower := lowerStr sector_name
  if direct_intensity > 12000 then
    (1.35, "IO literature: energy-intensive sectors (Miller & Blair 2009)")
  else if direct_intensity > 8000 then
    (1.45, "IO literature: heavy manufacturing (CMU EIO-LCA)")
  else if pyStartsWith code_str "23" then
    (2.1, "IO literature: construction sectors (Suh 2009)")
  else if pyStartsWith code_str "21" then
    (1.4, "IO literature: mining sectors (Miller & Blair 2009)")
  else if pyStartsWith code_str "11" then
    (1.6, "IO literature: agriculture sectors (CMU EIO-LCA)")
  else if pyStartsWith code_str "22" then
    (1.3, "IO literature: utilities sectors")
  else if pyStartsWith code_str "3" ∧ direct_intensity > 3000 then
    if defenseKws.any (fun kw => containsSub name_lower kw) then
      (1.75,
        "IO literature: complex defense manufacturing (higher materials/components)")
    else (1.65, "IO literature: standard manufacturing (Miller & Blair 2009)")
  else if pyStartsWith code_str "3" then
    (1.55, "IO literature: light manufacturing")
  else if pyStartsWith code_str "42" || pyStartsWith code_str "44" then
    (1.5, "IO literature: trade sectors (CMU EIO-LCA)")
  else if pyStartsWith code_str "48" then
    (1.6, "IO literature: transportation sectors")
  else if pyStartsWith code_str "51" then
    (1.7, "IO literature: information sectors (high purchased services)")
  else if pyStartsWith code_str "54" then
    (1.8, "IO literature: professional services (Suh 2009)")
  else if isDigits (code_str.data.take 2)
      ∧ digitsToNat (code_str.data.take 2) ≥ 55 then
    (1.75, "IO literature: service sectors (Miller & Blair 2009)")
  else
    (1.6, "IO literature: average across sectors")

/-- `c` starts with none of the given prefixes. -/
def noPrefix (c : String) (ps : List String) : Prop :=
  ∀ p ∈ ps, pyStartsWith c p = false

/-- **C6.** `get_io_multiplier` is a pure classification function of
(sector code, sector name, direct intensity) — equal inputs give equal
multipliers — and returns exactly the banded values of the spec table, each
band read under the guard order of the source: direct intensity > 12000 →
1.35; (8000, 12000] → 1.45; construction prefix 23 → 2.10; mining prefix
21 → 1.40; agriculture prefix 11 → 1.60; utilities prefix 22 → 1.30;
standard manufacturing (prefix 3, intensity > 3000) → 1.65, except
defense-relevant names with aircraft/ship/vehicle/tank keywords → 1.75;
light manufacturing (prefix 3) → 1.55; trade (42/44) → 1.50;
transportation (48) → 1.60; information (51) → 1.70; professional services
(54) → 1.80; other services (numeric prefix ≥ 55) → 1.75; default 1.60. -/
theorem energy_multiplier_bands (c n : String) (d : ℚ) :
    (∀ c₂ n₂ d₂, c = c₂ → n = n₂ → d = d₂ →
        get_io_multiplier c n d = get_io_multiplier c₂ n₂ d₂)
    ∧ (d > 12000 → (get_io_multiplier c n d).1 = 1.35)
    ∧ (d ≤ 12000 → d > 8000 → (get_io_multiplier c n d).1 = 1.45)
    ∧ (d ≤ 8000 → pyStartsWith c "23" = true →
        (get_io_multiplier c n d).1 = 2.1)
    ∧ (d ≤ 8000 → noPrefix c ["23"] → pyStartsWith c "21" = true →
        (get_io_multiplier c n d).1 = 1.4)
    ∧ (d ≤ 8000 → noPrefix c ["23", "21"] → pyStartsWith c "11" = true →
        (get_io_multiplier c n d).1 = 1.6)
    ∧ (d ≤ 8000 → noPrefix c ["23", "21", "11"] → pyStartsWith c "22" = true →
        (get_io_multiplier c n d).1 = 1.3)
    ∧ (d ≤ 8000 → d > 3000 → noPrefix c ["23", "21", "11", "22"] →
        pyStartsWith c "3" = true →
        (containsSub (lowerStr n) "aircraft" = true
          ∨ containsSub (lowerStr n) "ship" = true
          ∨ containsSub (lowerStr n) "vehicle" = true
          ∨ containsSub (lowerStr n) "tank" = true) →
        (get_io_multiplier c n d).1 = 1.75)
    ∧ (d ≤ 8000 → d > 3000 → noPrefix c ["23", "21", "11", "22"] →
        pyStartsWith c "3" = true →
        (∀ kw ∈ defenseKws, containsSub (lowerStr n) kw = false) →
        (get_io_multiplier c n d).1 = 1.65)
    ∧ (d ≤ 3000 → noPrefix c ["23", "21", "11", "22"] →
        pyStartsWith c "3" = true → (get_io_multiplier c n d).1 = 1.55)
    ∧ (d ≤ 8000 → noPrefix c ["23", "21", "11", "22", "3"] →
        (pyStartsWith c "42" = true ∨ pyStartsWith c "44" = true) →
        (get_io_multiplier c n d).1 = 1.5)
    ∧ (d ≤ 8000 → noPrefix c ["23", "21", "11", "22", "3", "42", "44"] →
        pyStartsWith c "48" = true → (get_io_multiplier c n d).1 = 1.6)
    ∧ (d ≤ 8000 → noPrefix c ["23", "21", "11", "22", "3", "42", "44", "48"] →
        pyStartsWith c "51" = true → (get_io_multiplier c n d).1 = 1.7)
    ∧ (d ≤ 8000 →
        noPrefix c ["23", "21", "11", "22", "3", "42", "44", "48", "51"] →
        pyStartsWith c "54" = true → (get_io_multiplier c n d).1 = 1.8)
    ∧ (d ≤ 8000 →
        noPrefix c ["23", "21", "11", "22", "3", "42", "44", "48", "51", "54"] →
        isDigits (c.data.take 2) = true → digitsToNat (c.data.take 2) ≥ 55 →
        (get_io_multiplier c n d).1 = 1.75)
    ∧ (d ≤ 8000 →
        noPrefix c ["23", "21", "11", "22", "3", "42", "44", "48", "51", "54"] →
        ¬ (isDigits (c.data.take 2) = true
            ∧ digitsToNat (c.data.take 2) ≥ 55) →
        (get_io_multiplier c n d).1 = 1.6) := by
  refine ⟨?_, ?_, ?_, ?_, ?_, ?_, ?_, ?_, ?_, ?_, ?_, ?_, ?_, ?_, ?_, ?_⟩
  · intro c₂ n₂ d₂ hc hn hd
    rw [hc, hn, hd]
  · intro h
    simp only [get_io_multiplier]
    rw [if_pos h]
  · intro h1 h2
    simp only [get_io_multiplier]
    rw [if_neg (not_lt.mpr h1), if_pos h2]
  · intro hd h23
    simp only [get_io_multiplier]
    rw [if_neg (not_lt.mpr (le_trans hd (by norm_num))),
      if_neg (not_lt.mpr hd), if_pos h23]
  · intro hd hno h21
    have h23 := hno "23" (by simp)
    simp only [get_io_multiplier]
    rw [if_neg (not_lt.mpr (le_trans hd (by norm_num))),
      if_neg (not_lt.mpr hd), if_neg (by simp [h23]), if_pos h21]
  · intro hd hno h11
    have h23 := hno "23" (by simp)
    have h21 := hno "21" (by simp)
    simp only [get_io_multiplier]
    rw [if_neg (not_lt.mpr (le_trans hd (by norm_num))),
      if_neg (not_lt.mpr hd), if_neg (by simp [h23]), if_neg (by simp [h21]),
      if_pos h11]
  · intro hd hno h22
    have h23 := hno "23" (by simp)
    have h21 := hno "21" (by simp)
    have h11 := hno "11" (by simp)
    simp only [get_io_multiplier]
    rw [if_neg (not_lt.mpr (le_trans hd (by norm_num))),
      if_neg (not_lt.mpr hd), if_neg (by simp [h23]), if_neg (by simp [h21]),
      if_neg (by simp [h11]), if_pos h22]
  · intro hd h3000 hno h3 hkw
    have h23 := hno "23" (by simp)
    have h21 := hno "21" (by simp)
    have h11 := hno "11" (by simp)
    have h22 := hno "22" (by simp)
    simp only [get_io_multiplier]
    rw [if_neg (not_lt.mpr (le_trans hd (by norm_num))),
      if_neg (not_lt.mpr hd), if_neg (by simp [h23]), if_neg (by simp [h21]),
      if_neg (by simp [h11]), if_neg (by simp [h22]), if_pos ⟨h3, h3000⟩,
      if_pos (by
        rcases hkw with h | h | h | h <;>
          simp [defenseKws, List.any_cons, h])]
  · intro hd h3000 hno h3 hnone
    have h23 := hno "23" (by simp)
    have h21 := hno "21" (by simp)
    have h11 := hno "11" (by simp)
    have h22 := hno "22" (by simp)
    simp only [get_io_multiplier]
    rw [if_neg (not_lt.mpr (le_trans hd (by norm_num))),
      if_neg (not_lt.mpr hd), if_neg (by simp [h23]), if_neg (by simp [h21]),
      if_neg (by simp [h11]), if_neg (by simp [h22]), if_pos ⟨h3, h3000⟩,
      if_neg (by
        intro hany
        rw [List.any_eq_true] at hany
        obtain ⟨kw, hkwmem, hcsub⟩ := hany
        rw [hnone kw hkwmem] at hcsub
        exact Bool.false_ne_true hcsub)]
  · intro hd hno h3
    have h23 := hno "23" (by simp)
    have h21 := hno "21" (by simp)
    have h11 := hno "11" (by simp)
    have h22 := hno "22" (by simp)
    simp only [get_io_multiplier]
    rw [if_neg (not_lt.mpr (le_trans hd (by norm_num))),
      if_neg (not_lt.mpr (le_trans hd (by norm_num))),
      if_neg (by simp [h23]), if_neg (by simp [h21]),
      if_neg (by simp [h11]), if_neg (by simp [h22]),
      if_neg (fun hh => absurd hh.2 (not_lt.mpr hd)), if_pos h3]
  · intro hd hno h4244
    have h23 := hno "23" (by simp)
    have h21 := hno "21" (by simp)
    have h11 := hno "11" (by simp)
    have h22 := hno "22" (by simp)
    have h3 := hno "3" (by simp)
    simp only [get_io_multiplier]
    rw [if_neg (not_lt.mpr (le_trans hd (by norm_num))),
      if_neg (not_lt.mpr hd), if_neg (by simp [h23]), if_neg (by simp [h21]),
      if_neg (by simp [h11]), if_neg (by simp [h22]),
      if_neg (fun hh => absurd hh.1 (by simp [h3])), if_neg (by simp [h3]),
      if_pos (by rcases h4244 with h | h <;> simp [h])]
  · intro hd hno h48
    have h23 := hno "23" (by simp)
    have h21 := hno "21" (by simp)
    have h11 := hno "11" (by simp)
    have h22 := hno "22" (by simp)
    have h3 := hno "3" (by simp)
    have h42 := hno "42" (by simp)
    have h44 := hno "44" (by simp)
    simp only [get_io_multiplier]
    rw [if_neg (not_lt.mpr (le_trans hd (by norm_num))),
      if_neg (not_lt.mpr hd), if_neg (by simp [h23]), if_neg (by simp [h21]),
      if_neg (by simp [h11]), if_neg (by simp [h22]),
      if_neg (fun hh => absurd hh.1 (by simp [h3])), if_neg (by simp [h3]),
      if_neg (by simp [h42, h44]), if_pos h48]
  · intro hd hno h51
    have h23 := hno "23" (by simp)
    have h21 := hno "21" (by simp)
    have h11 := hno "11" (by simp)
    have h22 := hno "22" (by simp)
    have h3 := hno "3" (by simp)
    have h42 := hno "42" (by simp)
    have h44 := hno "44" (by simp)
    have h48 := hno "48" (by simp)
    simp only [get_io_multiplier]
    rw [if_neg (not_lt.mpr (le_trans hd (by norm_num))),
      if_neg (not_lt.mpr hd), if_neg (by simp [h23]), if_neg (by simp [h21]),
      if_neg (by simp [h11]), if_neg (by simp [h22]),
      if_neg (fun hh => absurd hh.1 (by simp [h3])), if_neg (by simp [h3]),
      if_neg (by simp [h42, h44]), if_neg (by simp [h48]), if_pos h51]
  · intro hd hno h54
    have h23 := hno "23" (by simp)
    have h21 := hno "21" (by simp)
    have h11 := hno "11" (by simp)
    have h22 := hno "22" (by simp)
    have h3 := hno "3" (by simp)
    have h42 := hno "42" (by simp)
    have h44 := hno "44" (by simp)
    have h48 := hno "48" (by simp)
    have h51 := hno "51" (by simp)
    simp only [get_io_multiplier]
    rw [if_neg (not_lt.mpr (le_trans hd (by norm_num))),
      if_neg (not_lt.mpr hd), if_neg (by simp [h23]), if_neg (by simp [h21]),
      if_neg (by simp [h11]), if_neg (by simp [h22]),
      if_neg (fun hh => absurd hh.1 (by simp [h3])), if_neg (by simp [h3]),
      if_neg (by simp [h42, h44]), if_neg (by simp [h48]),
      if_neg (by simp [h51]), if_pos h54]
  · intro hd hno hdig h55
    have h23 := hno "23" (by simp)
    have h21 := hno "21" (by simp)
    have h11 := hno "11" (by simp)
    have h22 := hno "22" (by simp)
    have h3 := hno "3" (by simp)
    have h42 := hno "42" (by simp)
    have h44 := hno "44" (by simp)
    have h48 := hno "48" (by simp)
    have h51 := hno "51" (by simp)
    have h54 := hno "54" (by simp)
    simp only [get_io_multiplier]
    rw [if_neg (not_lt.mpr (le_trans hd (by norm_num))),
      if_neg (not_lt.mpr hd), if_neg (by simp [h23]), if_neg (by simp [h21]),
      if_neg (by simp [h11]), if_neg (by simp [h22]),
      if_neg (fun hh => absurd hh.1 (by simp [h3])), if_neg (by simp [h3]),
      if_neg (by simp [h42, h44]), if_neg (by simp [h48]),
      if_neg (by simp [h51]), if_neg (by simp [h54]), if_pos ⟨hdig, h55⟩]
  · intro hd hno hnd
    have h23 := hno "23" (by simp)
    have h21 := hno "21" (by simp)
    have h11 := hno "11" (by simp)
    have h22 := hno "22" (by simp)
    have h3 := hno "3" (by simp)
    have h42 := hno "42" (by simp)
    have h44 := hno "44" (by simp)
    have h48 := hno "48" (by simp)
    have h51 := hno "51" (by simp)
    have h54 := hno "54" (by simp)
    simp only [get_io_multiplier]
    rw [if_neg (not_lt.mpr (le_trans hd (by norm_num))),
      if_neg (not_lt.mpr hd), if_neg (by simp [h23]), if_neg (by simp [h21]),
      if_neg (by simp [h11]), if_neg (by simp [h22]),
      if_neg (fun hh => absurd hh.1 (by simp [h3])), if_neg (by simp [h3]),
      if_neg (by simp [h42, h44]), if_neg (by simp [h48]),
      if_neg (by simp [h51]), if_neg (by simp [h54]), if_neg hnd]

/-- Witness for `energy_multiplier_bands`: one concrete sector per band,
with every guard discharged concretely. -/
theorem energy_multiplier_bands_witness :
    (get_io_multiplier "999" "x" 13000).1 = 1.35
    ∧ (get_io_multiplier "999" "x" 9000).1 = 1.45
    ∧ (get_io_multiplier "237310" "x" 0).1 = 2.1
    ∧ (get_io_multiplier "212" "x" 0).1 = 1.4
    ∧ (get_io_multiplier "115" "x" 0).1 = 1.6
    ∧ (get_io_multiplier "221" "x" 0).1 = 1.3
    ∧ (get_io_multiplier "336411" "Aircraft Manufacturing" 5000).1 = 1.75
    ∧ (get_io_multiplier "336" "Widget Manufacturing" 5000).1 = 1.65
    ∧ (get_io_multiplier "332" "x" 1000).1 = 1.55
    ∧ (get_io_multiplier "42" "x" 0).1 = 1.5
    ∧ (get_io_multiplier "48" "x" 0).1 = 1.6
    ∧ (get_io_multiplier "51" "x" 0).1 = 1.7
    ∧ (get_io_multiplier "54" "x" 0).1 = 1.8
    ∧ (get_io_multiplier "561" "x" 0).1 = 1.75
    ∧ (get_io_multiplier "40" "x" 0).1 = 1.6 :=
  have np : ∀ (c : String) (ps : List String),
      (∀ p ∈ ps, pyStartsWith c p = false) → noPrefix c ps := fun _ _ h => h
  ⟨(energy_multiplier_bands "999" "x" 13000).2.1 (by norm_num),
   (energy_multiplier_bands "999" "x" 9000).2.2.1 (by norm_num) (by norm_num),
   (energy_multiplier_bands "237310" "x" 0).2.2.2.1 (by norm_num) (by decide),
   (energy_multiplier_bands "212" "x" 0).2.2.2.2.1 (by norm_num)
     (np _ _ (by decide)) (by decide),
   (energy_multiplier_bands "115" "x" 0).2.2.2.2.2.1 (by norm_num)
     (np _ _ (by decide)) (by decide),
   (energy_multiplier_bands "221" "x" 0).2.2.2.2.2.2.1 (by norm_num)
     (np _ _ (by decide)) (by decide),
   (energy_multiplier_bands "336411" "Aircraft Manufacturing" 5000
     ).2.2.2.2.2.2.2.1 (by norm_num) (by norm_num) (np _ _ (by decide))
     (by decide) (Or.inl (by decide)),
   (energy_multiplier_bands "336" "Widget Manufacturing" 5000
     ).2.2.2.2.2.2.2.2.1 (by norm_num) (by norm_num) (np _ _ (by decide))
     (by decide) (by decide),
   (energy_multiplier_bands "332" "x" 1000).2.2.2.2.2.2.2.2.2.1 (by norm_num)
     (np _ _ (by decide)) (by decide),
   (energy_multiplier_bands "42" "x" 0).2.2.2.2.2.2.2.2.2.2.1 (by norm_num)
     (np _ _ (by decide)) (Or.inl (by decide)),
   (energy_multiplier_bands "48" "x" 0).2.2.2.2.2.2.2.2.2.2.2.1 (by norm_num)
     (np _ _ (by decide)) (by decide),
   (energy_multiplier_bands "51" "x" 0).2.2.2.2.2.2.2.2.2.2.2.2.1
     (by norm_num) (np _ _ (by decide)) (by decide),
   (energy_multiplier_bands "54" "x" 0).2.2.2.2.2.2.2.2.2.2.2.2.2.1
     (by norm_num) (np _ _ (by decide)) (by decide),
   (energy_multiplier_bands "561" "x" 0).2.2.2.2.2.2.2.2.2.2.2.2.2.2.1
     (by norm_num) (np _ _ (by decide)) (by decide) (by decide),
   (energy_multiplier_bands "40" "x" 0).2.2.2.2.2.2.2.2.2.2.2.2.2.2.2
     (by norm_num) (np _ _ (by decide)) (by decide)⟩

end DIO
